import Mathlib

/-!
Verification of `react-formik-bootstrap-accessible` (src/index.tsx).

The repository exports accessible Formik/Bootstrap form components:
  * `useFocusInvalidField` — a hook that, after a failed form submission,
    moves keyboard focus to the first invalid field and scrolls its
    container into view;
  * `BootstrapInput` / `BootstrapSelect` — field renderers wiring up
    Bootstrap validity classes and ARIA attributes;
  * `RenderOptions` — a recursive renderer for nested option/group trees.

We shallowly embed the render-level logic as pure Lean functions.  DOM
elements are identified by `Nat` values; React render output is modelled
as lists of child descriptors; the reactive behaviour of the hook is
modelled as a function of an infinite render trace `Nat → FocusHookState`,
with `usePrevious` and the `useEffect` dependency-array gating made
explicit.
-/

namespace ReactFormikBootstrap

/-- A DOM element identity (the model only ever compares elements). -/
abbrev Elem := Nat

/-- The arguments of one call to the external helper
`focusAndScrollIntoViewIfRequired(focusTarget, scrollTarget, smoothScroll)`. -/
structure FocusCall where
  focusTarget : Elem
  scrollTarget : Elem
  smooth : Bool
deriving DecidableEq, Repr

/-- The reactive inputs of `useFocusInvalidField` visible at one render:
Formik's `isSubmitting` flag, the error mapping (an insertion-ordered
record, modelled as an association list so that `Object.keys(errors)[0]`
is the head key), and the current contents of the two refs created by the
hook (`fieldRef`, `containerElementRef`), each `none` when unset. -/
structure FocusHookState where
  isSubmitting : Bool
  errors : List (String × String)
  fieldRef : Option Elem
  containerRef : Option Elem
deriving DecidableEq, Repr

/-- `Object.keys(formikContext.errors)[0]`: the first key of the error
mapping, `none` when the mapping is empty (the TS value `undefined`). -/
def firstErrorKey (errors : List (String × String)) : Option String :=
  (errors.map Prod.fst).head?

/-- The body of the `useEffect` inside `useFocusInvalidField`: calls
`focusAndScrollIntoViewIfRequired` exactly when
`wasSubmitting === true && !isSubmitting && firstError === name &&
fieldRef.current !== null`, focusing `fieldRef.current` and scrolling
`containerElementRef.current ?? fieldRef.current`.  The returned value
records the call made (`none` = no call).  The body is a total function:
it never throws. -/
def effectBody (name : String) (smoothScroll : Bool) (wasSubmitting : Option Bool)
    (s : FocusHookState) : Option FocusCall :=
  if wasSubmitting = some true ∧ s.isSubmitting = false ∧
      firstErrorKey s.errors = some name ∧ s.fieldRef.isSome then
    s.fieldRef.map (fun f => ⟨f, s.containerRef.getD f, smoothScroll⟩)
  else
    none

/-- `usePrevious(formikContext.isSubmitting)` over a render trace: `none`
(`undefined`) on the first render, afterwards the previous render's value. -/
def wasSubmittingAt (tr : Nat → FocusHookState) : Nat → Option Bool
  | 0 => none
  | i + 1 => some (tr i).isSubmitting

/-- The `useEffect` dependency array
`[wasSubmitting, isSubmitting, name, errors, smoothScroll]` at render `i`
(the constant components `name` and `smoothScroll` are omitted: they never
change for a given hook instance). -/
def depsAt (tr : Nat → FocusHookState) (i : Nat) :
    Option Bool × Bool × List (String × String) :=
  (wasSubmittingAt tr i, (tr i).isSubmitting, (tr i).errors)

/-- React runs an effect after the first render and after every render
whose dependency array differs from the previous render's. -/
def effectRuns (tr : Nat → FocusHookState) : Nat → Bool
  | 0 => true
  | i + 1 => decide (depsAt tr (i + 1) ≠ depsAt tr i)

/-- The call (if any) that `useFocusInvalidField name smoothScroll` makes
to the focus-and-scroll helper at render `i` of the trace. -/
def callAt (tr : Nat → FocusHookState) (name : String) (smoothScroll : Bool)
    (i : Nat) : Option FocusCall :=
  if effectRuns tr i then effectBody name smoothScroll (wasSubmittingAt tr i) (tr i)
  else none

/-- The hook as called by the components.  The TS signature is
`useFocusInvalidField(name, smoothScroll = false)`; call sites that omit
the second argument get `false`, which we make explicit at each call
site below. -/
def useFocusInvalidField (name : String) (smoothScroll : Bool)
    (tr : Nat → FocusHookState) : Nat → Option FocusCall :=
  callAt tr name smoothScroll

mutual
/-- A runtime value of the TS union `SelectOptionOrGroup`.  Since the
union is discriminated only structurally (duck typing on the presence of
`value` and `label`), we model one record carrying every field either
variant may have, each optional field `none` when absent (`undefined`):
`value`/`label`/`disabled`/`key` and the group's `options` array (empty
for a plain `SelectOption`, which has no `options` field). -/
inductive OptionNode where
  | mk (value : Option String) (label : Option String) (disabled : Option Bool)
      (key : Option String) (options : OptionList)

/-- A `ReadonlyArray` of `OptionNode`s (mutual with `OptionNode`). -/
inductive OptionList where
  | nil
  | cons (head : OptionNode) (tail : OptionList)
end

def OptionNode.value : OptionNode → Option String
  | .mk v _ _ _ _ => v

def OptionNode.label : OptionNode → Option String
  | .mk _ l _ _ _ => l

def OptionNode.disabled : OptionNode → Option Bool
  | .mk _ _ d _ _ => d

def OptionNode.key : OptionNode → Option String
  | .mk _ _ _ k _ => k

def OptionNode.options : OptionNode → OptionList
  | .mk _ _ _ _ o => o

/-- The duck-typing guard `isSelectOption`:
`o.label !== undefined && o.value !== undefined`. -/
def isSelectOption (o : OptionNode) : Bool :=
  o.label.isSome && o.value.isSome

mutual
/-- A rendered `<option>` or `<optgroup>` element. -/
inductive RenderedOption where
  | optionEl (key : Option String) (value : Option String) (disabled : Option Bool)
      (text : Option String)
  | optgroupEl (key : Option String) (label : Option String) (disabled : Option Bool)
      (children : RenderedList)

/-- A rendered sibling list (mutual with `RenderedOption`). -/
inductive RenderedList where
  | nil
  | cons (head : RenderedOption) (tail : RenderedList)
end

mutual
/-- One step of `RenderOptions`'s `options.map`: a node classified by
`isSelectOption` becomes `<option key value disabled>{label}</option>`,
any other node becomes `<optgroup key label disabled>` whose children are
`RenderOptions` of its `options`. -/
def renderNode (o : OptionNode) : RenderedOption :=
  match o with
  | .mk v l d k opts =>
    if isSelectOption (.mk v l d k opts) then
      .optionEl k v d l
    else
      .optgroupEl k l d (RenderOptions opts)

/-- The `RenderOptions` component: maps `renderNode` over the array. -/
def RenderOptions (l : OptionList) : RenderedList :=
  match l with
  | .nil => .nil
  | .cons o rest => .cons (renderNode o) (RenderOptions rest)
end

/-- The inputs `BootstrapInput` reads from its props: the Formik field
name and value (`fieldProps.field`), the field error (`fieldProps.meta
.error`), the form's submit count (`fieldProps.form.submitCount`), and
the two members of `inputProps` the component itself inspects
(`inputProps?.id` and `inputProps?.type`); each optional member is `none`
when absent. -/
structure InputPropsM where
  fieldName : String
  fieldValue : Option String
  metaError : Option String
  submitCount : Nat
  inputPropsId : Option String
  inputPropsType : Option String
deriving DecidableEq, Repr

/-- `const id = props.inputProps?.id ?? name`. -/
def inputIdOf (p : InputPropsM) : String :=
  p.inputPropsId.getD p.fieldName

/-- `const isCheckboxOrRadio = type === "checkbox" || type === "radio"`. -/
def isCheckboxOrRadio (p : InputPropsM) : Bool :=
  p.inputPropsType = some "checkbox" || p.inputPropsType = some "radio"

/-- The shared class computation of both components:
`isSubmitted ? (isInvalid ? " is-invalid" : " is-valid") : ""` where
`isSubmitted = submitCount > 0` and `isInvalid = error !== undefined`. -/
def validationClass (submitCount : Nat) (metaError : Option String) : String :=
  if 0 < submitCount then
    if metaError.isSome then " is-invalid" else " is-valid"
  else ""

/-- The `className` of the rendered `<input>` element. -/
def inputClassName (p : InputPropsM) : String :=
  (if isCheckboxOrRadio p then "form-check-input" else "form-control") ++
    validationClass p.submitCount p.metaError

/-- `const invalidFeedbackId = id + "-feedback"`. -/
def invalidFeedbackId (id : String) : String :=
  id ++ "-feedback"

/-- One child element of `BootstrapInput`'s fragment. -/
inductive InputChild where
  | labelEl (className : String) (htmlFor : String)
  | inputEl (className : String) (id : String) (value : String)
      (ariaInvalid : Bool) (ariaDescribedby : Option String)
      (typeAttr : Option String)
  | errorEl (name : String) (id : String)
deriving DecidableEq, Repr

/-- The fragment `BootstrapInput` renders: a `<label htmlFor={id}>`, the
`<input>` with computed class, `aria-invalid={isInvalid}` and
`aria-describedby={isInvalid ? invalidFeedbackId : undefined}`, and the
`BootstrapErrorMessage` (always mounted). -/
def bootstrapInput (p : InputPropsM) : List InputChild :=
  [ .labelEl (if isCheckboxOrRadio p then "form-check-label" else "form-label")
      (inputIdOf p),
    .inputEl (inputClassName p) (inputIdOf p) (p.fieldValue.getD "")
      p.metaError.isSome
      (if p.metaError.isSome then some (invalidFeedbackId (inputIdOf p)) else none)
      p.inputPropsType,
    .errorEl p.fieldName (invalidFeedbackId (inputIdOf p)) ]

/-- The inputs `BootstrapSelect` reads from its props, analogous to
`InputPropsM`, plus `bootstrapOptions?.floatingLabel` and the `options`
array (`none` when the prop is absent). -/
structure SelectPropsM where
  fieldName : String
  fieldValue : Option String
  metaError : Option String
  submitCount : Nat
  inputPropsId : Option String
  floatingLabel : Option Bool
  options : Option OptionList

/-- `const id = props.inputProps?.id ?? name` in `BootstrapSelect`. -/
def selectIdOf (q : SelectPropsM) : String :=
  q.inputPropsId.getD q.fieldName

/-- `const isFloatingLabel = props.bootstrapOptions?.floatingLabel ?? false`. -/
def isFloatingLabelOf (q : SelectPropsM) : Bool :=
  q.floatingLabel.getD false

/-- The `className` of the rendered `<select>` element. -/
def selectClassName (q : SelectPropsM) : String :=
  "form-select" ++ validationClass q.submitCount q.metaError

/-- One child element of `BootstrapSelect`'s container `<div>`. -/
inductive SelectChild where
  | labelEl (className : String) (htmlFor : String)
  | selectEl (className : String) (id : String) (value : String)
      (ariaInvalid : Bool) (ariaDescribedby : Option String)
      (options : RenderedList)
  | errorEl (name : String) (id : String)

/-- The container `<div>` `BootstrapSelect` renders: its `className`
(`"form-floating"` when the floating-label mode is on, otherwise the
attribute is absent) and its children. -/
structure SelectRender where
  containerClass : Option String
  children : List SelectChild

/-- `BootstrapSelect`'s render: inside the container div, the label comes
first unless floating (`{!isFloatingLabel ? label : undefined}`), then the
`<select>` (with `RenderOptions` of `props.options ?? []` as children),
then the label when floating, then the `BootstrapErrorMessage` only when
`isInvalid`. -/
def bootstrapSelect (q : SelectPropsM) : SelectRender :=
  { containerClass :=
      if isFloatingLabelOf q then some "form-floating" else none
    children :=
      (if !isFloatingLabelOf q then [SelectChild.labelEl "form-label" (selectIdOf q)]
       else []) ++
      [ SelectChild.selectEl (selectClassName q) (selectIdOf q)
          (q.fieldValue.getD "") q.metaError.isSome
          (if q.metaError.isSome then some (invalidFeedbackId (selectIdOf q)) else none)
          (RenderOptions (q.options.getD .nil)) ] ++
      (if isFloatingLabelOf q then [SelectChild.labelEl "form-label" (selectIdOf q)]
       else []) ++
      (if q.metaError.isSome then
        [SelectChild.errorEl q.fieldName (invalidFeedbackId (selectIdOf q))]
       else []) }

/-- `BootstrapInput` invokes the focus hook as `useFocusInvalidField(name)`:
the `smoothScroll` parameter is omitted, so its default `false` applies. -/
def bootstrapInputFocusCalls (p : InputPropsM) (tr : Nat → FocusHookState) :
    Nat → Option FocusCall :=
  useFocusInvalidField p.fieldName false tr

/-- `BootstrapSelect` invokes the focus hook as `useFocusInvalidField(name)`:
the `smoothScroll` parameter is omitted, so its default `false` applies. -/
def bootstrapSelectFocusCalls (q : SelectPropsM) (tr : Nat → FocusHookState) :
    Nat → Option FocusCall :=
  useFocusInvalidField q.fieldName false tr

/-- A flattened view of one rendered element: an `<option>` token or an
`<optgroup>` token (without its children, which follow it in a pre-order
flattening). -/
inductive RenderTok where
  | optTok (key : Option String) (value : Option String) (disabled : Option Bool)
      (text : Option String)
  | grpTok (key : Option String) (label : Option String) (disabled : Option Bool)
deriving DecidableEq, Repr

mutual
/-- Depth-first pre-order flattening of a rendered element. -/
def tokensOfNode : RenderedOption → List RenderTok
  | .optionEl k v d t => [.optTok k v d t]
  | .optgroupEl k l d c => .grpTok k l d :: tokensOfList c

/-- Depth-first pre-order flattening of a rendered sibling list. -/
def tokensOfList : RenderedList → List RenderTok
  | .nil => []
  | .cons h t => tokensOfNode h ++ tokensOfList t
end

mutual
/-- Specification-side traversal (from the spec's words): visit each node
once, in array order, depth-first pre-order; a node classified as a leaf
is emitted as an option token and not descended into; any other node is
emitted as a group token followed by the traversal of its children. -/
def specPreorderNode (o : OptionNode) : List RenderTok :=
  match o with
  | .mk v l d k opts =>
    if isSelectOption (.mk v l d k opts) then [.optTok k v d l]
    else .grpTok k l d :: specPreorderList opts

/-- Specification-side traversal of a sibling array, in array order. -/
def specPreorderList : OptionList → List RenderTok
  | .nil => []
  | .cons h t => specPreorderNode h ++ specPreorderList t
end

mutual
/-- The number of nodes the specified traversal visits below (and
including) one node: leaves are visited and not descended into. -/
def visitCountNode (o : OptionNode) : Nat :=
  match o with
  | .mk v l d k opts =>
    if isSelectOption (.mk v l d k opts) then 1 else 1 + visitCountList opts

/-- The number of nodes the specified traversal visits in an array. -/
def visitCountList : OptionList → Nat
  | .nil => 0
  | .cons h t => visitCountNode h + visitCountList t
end

mutual
/-- The leaf-classified nodes below (and including) one node, pre-order. -/
def leavesNode (o : OptionNode) : List OptionNode :=
  match o with
  | .mk v l d k opts =>
    if isSelectOption (.mk v l d k opts) then [.mk v l d k opts]
    else leavesList opts

/-- The leaf-classified nodes of an array, pre-order. -/
def leavesList : OptionList → List OptionNode
  | .nil => []
  | .cons h t => leavesNode h ++ leavesList t
end

/-- The option token a leaf node is rendered to. -/
def leafTok (o : OptionNode) : RenderTok :=
  .optTok o.key o.value o.disabled o.label

/-- Whether a token is an `<option>` (leaf) token. -/
def RenderTok.isOptTok : RenderTok → Bool
  | .optTok _ _ _ _ => true
  | .grpTok _ _ _ => false

mutual
/-- Flattening a rendered node gives the specified traversal of the
source node. -/
theorem tokens_render_node (o : OptionNode) :
    tokensOfNode (renderNode o) = specPreorderNode o := by
  cases o with
  | mk v l d k opts =>
    cases hb : isSelectOption (.mk v l d k opts) with
    | true => simp [renderNode, specPreorderNode, hb, tokensOfNode]
    | false =>
      simp [renderNode, specPreorderNode, hb, tokensOfNode,
        tokens_render_list opts]

/-- Flattening a rendered array gives the specified traversal of the
source array. -/
theorem tokens_render_list (l : OptionList) :
    tokensOfList (RenderOptions l) = specPreorderList l := by
  cases l with
  | nil => rfl
  | cons h t =>
    simp [RenderOptions, tokensOfList, specPreorderList,
      tokens_render_node h, tokens_render_list t]
end

mutual
/-- The specified traversal of a node emits one token per visited node. -/
theorem spec_length_node (o : OptionNode) :
    (specPreorderNode o).length = visitCountNode o := by
  cases o with
  | mk v l d k opts =>
    cases hb : isSelectOption (.mk v l d k opts) with
    | true => simp [specPreorderNode, visitCountNode, hb]
    | false =>
      simp [specPreorderNode, visitCountNode, hb, spec_length_list opts,
        Nat.add_comm]

/-- The specified traversal of an array emits one token per visited node. -/
theorem spec_length_list (l : OptionList) :
    (specPreorderList l).length = visitCountList l := by
  cases l with
  | nil => rfl
  | cons h t =>
    simp [specPreorderList, visitCountList, spec_length_node h,
      spec_length_list t]
end

mutual
/-- The option tokens of a node's specified traversal are exactly its
leaf-classified nodes, rendered, in pre-order. -/
theorem spec_leaves_node (o : OptionNode) :
    (specPreorderNode o).filter RenderTok.isOptTok = (leavesNode o).map leafTok := by
  cases o with
  | mk v l d k opts =>
    cases hb : isSelectOption (.mk v l d k opts) with
    | true =>
      simp [specPreorderNode, leavesNode, hb, leafTok, RenderTok.isOptTok,
        OptionNode.key, OptionNode.value, OptionNode.disabled, OptionNode.label]
    | false =>
      simp [specPreorderNode, leavesNode, hb, RenderTok.isOptTok,
        spec_leaves_list opts]

/-- The option tokens of an array's specified traversal are exactly its
leaf-classified nodes, rendered, in pre-order. -/
theorem spec_leaves_list (l : OptionList) :
    (specPreorderList l).filter RenderTok.isOptTok = (leavesList l).map leafTok := by
  cases l with
  | nil => rfl
  | cons h t =>
    simp [specPreorderList, leavesList, spec_leaves_node h,
      spec_leaves_list t]
end

lemma effectBody_isSome_iff (name : String) (sm : Bool) (was : Option Bool)
    (s : FocusHookState) :
    (effectBody name sm was s).isSome = true ↔
      (was = some true ∧ s.isSubmitting = false ∧
        firstErrorKey s.errors = some name ∧ s.fieldRef.isSome) := by
  unfold effectBody
  split
  · rename_i hcond
    refine ⟨fun _ => hcond, fun _ => ?_⟩
    cases hf : s.fieldRef with
    | none => rw [hf] at hcond; exact absurd hcond.2.2.2 (by simp)
    | some f => rfl
  · rename_i hcond
    exact ⟨fun h => Bool.noConfusion h, fun h => absurd h hcond⟩

lemma effectBody_smooth (name : String) (sm : Bool) (was : Option Bool)
    (s : FocusHookState) (c : FocusCall)
    (h : effectBody name sm was s = some c) : c.smooth = sm := by
  unfold effectBody at h
  split at h
  · cases hf : s.fieldRef with
    | none => rw [hf] at h; exact Option.noConfusion h
    | some f =>
      rw [hf] at h
      have h2 : (⟨f, s.containerRef.getD f, sm⟩ : FocusCall) = c := Option.some.inj h
      rw [← h2]
  · exact Option.noConfusion h

lemma callAt_eq_some (tr : Nat → FocusHookState) (name : String) (sm : Bool)
    (i : Nat) (c : FocusCall) (h : callAt tr name sm i = some c) :
    effectBody name sm (wasSubmittingAt tr i) (tr i) = some c := by
  unfold callAt at h
  split at h
  · exact h
  · exact Option.noConfusion h

lemma effectRuns_of_edge (tr : Nat → FocusHookState) (i : Nat)
    (hprev : (tr i).isSubmitting = true)
    (hnow : (tr (i + 1)).isSubmitting = false) :
    effectRuns tr (i + 1) = true := by
  unfold effectRuns
  simp only [decide_eq_true_eq]
  intro heq
  have hcomp := congrArg (fun t => t.2.1) heq
  simp only [depsAt] at hcomp
  rw [hnow, hprev] at hcomp
  exact Bool.noConfusion hcomp

lemma callAt_isSome_iff (tr : Nat → FocusHookState) (name : String) (sm : Bool)
    (i : Nat) :
    (callAt tr name sm i).isSome = true ↔
      (wasSubmittingAt tr i = some true ∧ (tr i).isSubmitting = false ∧
        firstErrorKey (tr i).errors = some name ∧ (tr i).fieldRef.isSome) := by
  constructor
  · intro h
    unfold callAt at h
    split at h
    · exact (effectBody_isSome_iff name sm (wasSubmittingAt tr i) (tr i)).mp h
    · exact Bool.noConfusion h
  · intro hcond
    cases i with
    | zero => exact Option.noConfusion hcond.1
    | succ j =>
      have hprev : (tr j).isSubmitting = true := Option.some.inj hcond.1
      have hruns := effectRuns_of_edge tr j hprev hcond.2.1
      unfold callAt
      rw [hruns]
      simp only [if_true]
      exact (effectBody_isSome_iff name sm (wasSubmittingAt tr (j + 1))
        (tr (j + 1))).mpr hcond

/-- C1: at every render of the trace, `useFocusInvalidField` calls the
focus-and-scroll helper if and only if the previous render's
`isSubmitting` was `true`, the current `isSubmitting` is `false`, the
first key of the current error mapping is the hook's field name, and the
focus-target ref is non-null; in particular, when the first error field
name differs from the watched field's name, no call occurs. -/
theorem focus_helper_fires_iff (tr : Nat → FocusHookState) (name : String)
    (sm : Bool) (i : Nat) :
    ((callAt tr name sm i).isSome = true ↔
      (wasSubmittingAt tr i = some true ∧ (tr i).isSubmitting = false ∧
        firstErrorKey (tr i).errors = some name ∧ (tr i).fieldRef.isSome)) ∧
    (firstErrorKey (tr i).errors ≠ some name → callAt tr name sm i = none) := by
  constructor
  · exact callAt_isSome_iff tr name sm i
  · intro hne
    rw [← Option.not_isSome_iff_eq_none]
    intro hsome
    exact hne ((callAt_isSome_iff tr name sm i).mp hsome).2.2.1

/-- A sample trace: render 0 is mid-submission with no errors, every
later render has submission finished and field `"email"` in error, with
the focus target mounted as element `7` inside container `9`. -/
def sampleTrace : Nat → FocusHookState := fun i =>
  if i = 0 then ⟨true, [], some 7, some 9⟩
  else ⟨false, [("email", "Required")], some 7, some 9⟩

/-- Witness for C1 at a concrete input: a tick whose first error key is
`"name"`, not the watched `"email"`, produces no call. -/
theorem focus_helper_fires_iff_witness :
    callAt (fun _ => ⟨false, [("name", "Required")], some 7, some 9⟩)
      "email" false 1 = none :=
  (focus_helper_fires_iff (fun _ => ⟨false, [("name", "Required")], some 7, some 9⟩)
    "email" false 1).2 (by decide)

/-- C2: a qualifying submission-completion transition (falling edge of
`isSubmitting` with the watched field as first error and a mounted focus
target) produces a helper call — hence exactly one focus move and at most
one scroll — and no later render re-triggers the helper while submission
has not restarted, so repeated re-renders within the same transition are
idempotent. -/
theorem focus_fires_once_per_transition (tr : Nat → FocusHookState)
    (name : String) (sm : Bool) (i : Nat)
    (hprev : (tr i).isSubmitting = true)
    (hnow : (tr (i + 1)).isSubmitting = false)
    (herr : firstErrorKey (tr (i + 1)).errors = some name)
    (href : (tr (i + 1)).fieldRef.isSome) :
    (callAt tr name sm (i + 1)).isSome = true ∧
      ∀ k, i + 1 < k →
        (∀ m, i + 1 ≤ m → m < k → (tr m).isSubmitting = false) →
        callAt tr name sm k = none := by
  constructor
  · have hws : wasSubmittingAt tr (i + 1) = some true := by
      simp only [wasSubmittingAt, hprev]
    exact (callAt_isSome_iff tr name sm (i + 1)).mpr ⟨hws, hnow, herr, href⟩
  · intro k hk hwin
    obtain ⟨j, rfl⟩ : ∃ j, k = j + 1 := ⟨k - 1, by omega⟩
    have hj : (tr j).isSubmitting = false := hwin j (by omega) (by omega)
    rw [← Option.not_isSome_iff_eq_none]
    intro hsome
    have hcond := (callAt_isSome_iff tr name sm (j + 1)).mp hsome
    have : some (tr j).isSubmitting = some true := hcond.1
    rw [hj] at this
    exact Bool.noConfusion (Option.some.inj this)

/-- Witness for C2: on the sample trace the transition at render 1 fires,
and render 2 (a re-render within the same transition) does not. -/
theorem focus_fires_once_per_transition_witness :
    (callAt sampleTrace "email" false 1).isSome = true ∧
      callAt sampleTrace "email" false 2 = none := by
  have h := focus_fires_once_per_transition sampleTrace "email" false 0
    (by decide) (by decide) (by decide) (by decide)
  exact ⟨h.1, h.2 2 (by omega) (fun m h1 h2 => by
    have hm : m = 1 := by omega
    subst hm
    decide)⟩

/-- C3: when the focus-target ref is null (field unmounted) at an
otherwise qualifying tick, the effect makes no helper call (hence no
focus and no scroll); the effect body is a total function, so nothing is
thrown — a silent no-op. -/
theorem focus_noop_when_field_unmounted (name : String) (sm : Bool)
    (was : Option Bool) (s : FocusHookState) (h : s.fieldRef = none) :
    effectBody name sm was s = none := by
  unfold effectBody
  rw [if_neg]
  intro hcond
  rw [h] at hcond
  exact Bool.noConfusion hcond.2.2.2

/-- Witness for C3: submission just finished with `"email"` the first
error, but the field is unmounted — no call is made. -/
theorem focus_noop_when_field_unmounted_witness :
    effectBody "email" false (some true)
      ⟨false, [("email", "Required")], none, some 9⟩ = none :=
  focus_noop_when_field_unmounted "email" false (some true)
    ⟨false, [("email", "Required")], none, some 9⟩ rfl

/-- C4: whenever the hook fires, the focus argument of the helper is the
focus target, and the scroll argument is the registered scroll container
when its ref is non-null, otherwise the focus target itself. -/
theorem focus_scroll_arguments (name : String) (sm : Bool) (was : Option Bool)
    (s : FocusHookState) (f : Elem) (c : FocusCall)
    (hf : s.fieldRef = some f)
    (hc : effectBody name sm was s = some c) :
    c.focusTarget = f ∧
      c.scrollTarget = (match s.containerRef with | some g => g | none => f) := by
  unfold effectBody at hc
  split at hc
  · rw [hf] at hc
    have h2 : (⟨f, s.containerRef.getD f, sm⟩ : FocusCall) = c := Option.some.inj hc
    rw [← h2]
    cases s.containerRef with
    | none => exact ⟨rfl, rfl⟩
    | some g => exact ⟨rfl, rfl⟩
  · exact Option.noConfusion hc

/-- Witness for C4: with the field mounted as element `7` and container
`9`, the call focuses `7` and scrolls `9`. -/
theorem focus_scroll_arguments_witness :
    (⟨7, 9, false⟩ : FocusCall).focusTarget = 7 ∧
      (⟨7, 9, false⟩ : FocusCall).scrollTarget =
        (match (some 9 : Option Elem) with | some g => g | none => 7) :=
  focus_scroll_arguments "email" false (some true)
    ⟨false, [("email", "Required")], some 7, some 9⟩ 7 ⟨7, 9, false⟩ rfl (by decide)

/-- C10: both components invoke the hook without a smooth-scroll argument
so the default `false` applies; every helper call either component ever
makes therefore has its smooth-scroll flag `false`. -/
theorem components_request_no_smooth_scroll (p : InputPropsM) (q : SelectPropsM)
    (tr1 tr2 : Nat → FocusHookState) (i j : Nat) (c d : FocusCall)
    (hc : bootstrapInputFocusCalls p tr1 i = some c)
    (hd : bootstrapSelectFocusCalls q tr2 j = some d) :
    c.smooth = false ∧ d.smooth = false := by
  constructor
  · exact effectBody_smooth p.fieldName false (wasSubmittingAt tr1 i) (tr1 i) c
      (callAt_eq_some tr1 p.fieldName false i c hc)
  · exact effectBody_smooth q.fieldName false (wasSubmittingAt tr2 j) (tr2 j) d
      (callAt_eq_some tr2 q.fieldName false j d hd)

/-- Witness for C10: both components, rendered for field `"email"` over
the sample trace, fire at render 1 with a non-smooth call. -/
theorem components_request_no_smooth_scroll_witness :
    (⟨7, 9, false⟩ : FocusCall).smooth = false ∧
      (⟨7, 9, false⟩ : FocusCall).smooth = false :=
  components_request_no_smooth_scroll
    ⟨"email", none, some "Required", 1, none, none⟩
    ⟨"email", none, some "Required", 1, none, none, none⟩
    sampleTrace sampleTrace 1 1 ⟨7, 9, false⟩ ⟨7, 9, false⟩
    (by decide) (by decide)

/-- C5: for every render of `BootstrapInput` or `BootstrapSelect`, when
`submitCount === 0` the element's class is just the structural class (no
valid/invalid class appended, whatever the error state); when
`submitCount > 0` the appended class is `" is-invalid"` exactly when an
error is present and `" is-valid"` otherwise. -/
theorem validation_class_policy (p : InputPropsM) (q : SelectPropsM) :
    (p.submitCount = 0 →
      inputClassName p =
        (if isCheckboxOrRadio p then "form-check-input" else "form-control")) ∧
    (0 < p.submitCount →
      inputClassName p =
        (if isCheckboxOrRadio p then "form-check-input" else "form-control") ++
          (if p.metaError.isSome then " is-invalid" else " is-valid")) ∧
    (q.submitCount = 0 → selectClassName q = "form-select") ∧
    (0 < q.submitCount →
      selectClassName q =
        "form-select" ++ (if q.metaError.isSome then " is-invalid" else " is-valid")) := by
  refine ⟨fun h0 => ?_, fun h1 => ?_, fun h2 => ?_, fun h3 => ?_⟩
  · simp [inputClassName, validationClass, h0]
  · simp [inputClassName, validationClass, h1]
  · simp [selectClassName, validationClass, h2]
  · simp [selectClassName, validationClass, h3]

/-- Witness for C5: concrete renders before and after first submission,
with and without errors. -/
theorem validation_class_policy_witness :
    inputClassName ⟨"email", none, some "Required", 0, none, none⟩ = "form-control" ∧
    inputClassName ⟨"email", none, some "Required", 1, none, none⟩ =
      "form-control is-invalid" ∧
    selectClassName ⟨"color", none, none, 0, none, none, none⟩ = "form-select" ∧
    selectClassName ⟨"color", none, none, 1, none, none, none⟩ =
      "form-select is-valid" := by
  have h := validation_class_policy ⟨"email", none, some "Required", 0, none, none⟩
    ⟨"color", none, none, 0, none, none, none⟩
  have h2 := validation_class_policy ⟨"email", none, some "Required", 1, none, none⟩
    ⟨"color", none, none, 1, none, none, none⟩
  exact ⟨(h.1 rfl).trans (by decide), (h2.2.1 (by decide)).trans (by decide),
    (h.2.2.1 rfl).trans (by decide), (h2.2.2.2 (by decide)).trans (by decide)⟩

/-- The ARIA attributes of an `<input>` child, when the child is one. -/
def inputChildAria : InputChild → Option (Bool × Option String)
  | .inputEl _ _ _ a ds _ => some (a, ds)
  | _ => none

/-- The ARIA attributes of a `<select>` child, when the child is one. -/
def selectChildAria : SelectChild → Option (Bool × Option String)
  | .selectEl _ _ _ a ds _ => some (a, ds)
  | _ => none

/-- C6: in both components' rendered output, the control element carries
`aria-invalid` exactly when the error is present — independent of the
submit count — and `aria-describedby` is the feedback id `<id>-feedback`
when an error is present and unset otherwise. -/
theorem aria_attributes_policy (p : InputPropsM) (q : SelectPropsM) :
    (bootstrapInput p).findSome? inputChildAria =
      some (p.metaError.isSome,
        if p.metaError.isSome then some (inputIdOf p ++ "-feedback") else none) ∧
    (bootstrapSelect q).children.findSome? selectChildAria =
      some (q.metaError.isSome,
        if q.metaError.isSome then some (selectIdOf q ++ "-feedback") else none) := by
  constructor
  · simp [bootstrapInput, inputChildAria, List.findSome?_cons, invalidFeedbackId]
  · cases hf : isFloatingLabelOf q <;>
      cases he : q.metaError.isSome <;>
        simp [bootstrapSelect, selectChildAria, hf, he, List.findSome?_cons,
          invalidFeedbackId]

/-- Whether a select child is the label element. -/
def SelectChild.isLabelChild : SelectChild → Bool
  | .labelEl _ _ => true
  | _ => false

/-- Whether a select child is the `<select>` element. -/
def SelectChild.isSelectChild : SelectChild → Bool
  | .selectEl _ _ _ _ _ _ => true
  | _ => false

/-- Whether a select child is the error-message container. -/
def SelectChild.isErrorChild : SelectChild → Bool
  | .errorEl _ _ => true
  | _ => false

/-- Whether an input child is the error-message container. -/
def InputChild.isErrorChild : InputChild → Bool
  | .errorEl _ _ => true
  | _ => false

/-- C8: when the floating-label option is enabled the container div has
class `"form-floating"` and the (single) label comes after the (single)
select element; when disabled the container has no class attribute and
the label precedes the select. -/
theorem floating_label_placement (q : SelectPropsM) :
    (bootstrapSelect q).containerClass =
      (if isFloatingLabelOf q then some "form-floating" else none) ∧
    (bootstrapSelect q).children.countP SelectChild.isLabelChild = 1 ∧
    (bootstrapSelect q).children.countP SelectChild.isSelectChild = 1 ∧
    (bootstrapSelect q).children.findIdx SelectChild.isLabelChild =
      (if isFloatingLabelOf q then 1 else 0) ∧
    (bootstrapSelect q).children.findIdx SelectChild.isSelectChild =
      (if isFloatingLabelOf q then 0 else 1) := by
  cases hf : isFloatingLabelOf q <;>
    cases he : q.metaError.isSome <;>
      simp [bootstrapSelect, hf, he, List.countP_cons, List.findIdx_cons,
        SelectChild.isLabelChild, SelectChild.isSelectChild]

/-- C9: `BootstrapSelect` mounts its error-message container exactly when
an error is present, while `BootstrapInput` always mounts it. -/
theorem error_message_mounting (p : InputPropsM) (q : SelectPropsM) :
    (bootstrapInput p).countP InputChild.isErrorChild = 1 ∧
    (bootstrapSelect q).children.countP SelectChild.isErrorChild =
      (if q.metaError.isSome then 1 else 0) := by
  constructor
  · simp [bootstrapInput, List.countP_cons, InputChild.isErrorChild]
  · cases hf : isFloatingLabelOf q <;>
      cases he : q.metaError.isSome <;>
        simp [bootstrapSelect, hf, he, List.countP_cons, SelectChild.isErrorChild]

/-- C7: the option-tree renderer emits, in depth-first pre-order
preserving the array order at every level, exactly one element per
visited node (so no node is visited twice), its option elements are
exactly the leaf-classified nodes rendered once each in order, and a node
is classified as a leaf precisely when both its `value` and its `label`
are present. -/
theorem render_options_preorder (l : OptionList) :
    tokensOfList (RenderOptions l) = specPreorderList l ∧
    (tokensOfList (RenderOptions l)).length = visitCountList l ∧
    (tokensOfList (RenderOptions l)).filter RenderTok.isOptTok =
      (leavesList l).map leafTok ∧
    ∀ o : OptionNode, isSelectOption o = (o.value.isSome && o.label.isSome) := by
  refine ⟨tokens_render_list l, ?_, ?_, ?_⟩
  · rw [tokens_render_list l, spec_length_list l]
  · rw [tokens_render_list l, spec_leaves_list l]
  · intro o
    cases o with
    | mk v lb d k opts =>
      simp [isSelectOption, OptionNode.value, OptionNode.label, Bool.and_comm]

end ReactFormikBootstrap
